import Mathlib

/-!
Verification of the dataset-ingestion routines of the geniusrise-huggingface
repository (src/huggingface/classification.py and
src/huggingface/commonsense_reasoning.py), via a shallow embedding.

The embedding models:
* Python dicts over a key type with decidable equality as ordered association
  lists with overwrite-on-insert semantics (`dictInsert`, `dictLookup`,
  `buildDict`), matching CPython dict comprehension behaviour;
* the label index built in classification.py lines 146-153
  (`labelToId`, `idToLabel`);
* the two feature preparers (`tokenize_function` from classification.py
  lines 82-85 and `prepare_train_features` from commonsense_reasoning.py
  lines 143-171), with the call to the external tokenizer reified as a
  record of the arguments passed;
* the directory loaders (`cls_load_dataset`, `cr_load_dataset`) with the
  external format parsers (json, pandas, pyarrow, yaml, sqlite) abstracted
  as a `Decoders` record of fallible functions, and the repository's own
  resource acquisitions (with-blocks and sqlite3.connect) tracked as
  opened/closed handle counts.
-/

namespace Geniusrise

/-- Failures that the loader code can surface. `decode` stands for any
exception raised by an external format parser; `keyError` is the KeyError
from `self.label_to_id[label]`; `noneNotSubscriptable` is the TypeError from
subscripting `label_to_id` when it is `None`; `tokenizerNotInitialized` is the
explicit raise in `prepare_train_features`; `tokenizerNotCallable` is the
TypeError from calling `self.tokenizer` when it is `None`. -/
inductive LoadError where
  | decode (msg : String)
  | keyError (lbl : String)
  | noneNotSubscriptable
  | tokenizerNotInitialized
  | tokenizerNotCallable
  deriving DecidableEq, Repr

/-- A classification record: `{"text": ..., "label": ...}`. -/
structure CRecord where
  text : String
  label : String
  deriving DecidableEq, Repr

/-- A commonsense-reasoning record: premise, hypothesis and an integer label. -/
structure PRecord where
  premise : String
  hypothesis : String
  label : Int
  deriving DecidableEq, Repr

/-- Python-dict insertion: if the key is already present, overwrite its value
in place (keeping the original key position); otherwise append the pair. -/
def dictInsert {κ α : Type} [DecidableEq κ] (k : κ) (v : α) :
    List (κ × α) → List (κ × α)
  | [] => [(k, v)]
  | (k', v') :: rest =>
    if k' = k then (k', v) :: rest else (k', v') :: dictInsert k v rest

/-- Python-dict lookup: value of the (unique) entry with the given key. -/
def dictLookup {κ α : Type} [DecidableEq κ] (k : κ) :
    List (κ × α) → Option α
  | [] => none
  | (k', v) :: rest => if k' = k then some v else dictLookup k rest

/-- A dict built from a sequence of key-value pairs, later pairs overwriting
earlier ones: the semantics of a Python dict comprehension. -/
def buildDict {κ α : Type} [DecidableEq κ] (pairs : List (κ × α)) :
    List (κ × α) :=
  pairs.foldl (fun d p => dictInsert p.1 p.2 d) []

/-- Python `enumerate` starting at index `n`. -/
def enumFromIdx {α : Type} (n : Nat) : List α → List (Nat × α)
  | [] => []
  | x :: rest => (n, x) :: enumFromIdx (n + 1) rest

/-- Python `enumerate(xs)`. -/
def pyEnumerate {α : Type} (xs : List α) : List (Nat × α) :=
  enumFromIdx 0 xs

/-- classification.py lines 147-148:
`unique_labels = (example["label"] for example in data)` followed by
`self.label_to_id = {label: i for i, label in enumerate(unique_labels)}`.
Note that `unique_labels` iterates ALL labels of the data, without
deduplication, so the comprehension enumerates every record's label. -/
def labelToId (labels : List String) : List (String × Nat) :=
  buildDict ((pyEnumerate labels).map (fun p => (p.2, p.1)))

/-- classification.py line 153:
`self.model.config.id2label = {i: label for label, i in self.label_to_id.items()}`. -/
def idToLabel (d : List (String × Nat)) : List (Nat × String) :=
  buildDict (d.map (fun p => (p.2, p.1)))

/-! ### Dict lemmas -/

theorem dictLookup_dictInsert {κ α : Type} [DecidableEq κ]
    (k k' : κ) (v : α) (l : List (κ × α)) :
    dictLookup k (dictInsert k' v l) =
      if k' = k then some v else dictLookup k l := by
  induction l with
  | nil => simp [dictInsert, dictLookup]
  | cons p rest ih =>
    obtain ⟨a, b⟩ := p
    by_cases hak : a = k'
    · subst hak
      by_cases hk : a = k <;> simp [dictInsert, dictLookup, hk]
    · by_cases hk : k' = k
      · subst hk
        simp [dictInsert, dictLookup, hak, ih]
      · simp [dictInsert, dictLookup, hak, hk, ih]

/-- First-some choice on options. -/
def optOr {α : Type} (a b : Option α) : Option α :=
  match a with
  | some v => some v
  | none => b

theorem optOr_none_right {α : Type} (a : Option α) : optOr a none = a := by
  cases a <;> rfl

theorem optOr_assoc {α : Type} (a b c : Option α) :
    optOr (optOr a b) c = optOr a (optOr b c) := by
  cases a <;> cases b <;> rfl

theorem dictLookup_append {κ α : Type} [DecidableEq κ]
    (k : κ) (l1 l2 : List (κ × α)) :
    dictLookup k (l1 ++ l2) = optOr (dictLookup k l1) (dictLookup k l2) := by
  induction l1 with
  | nil => simp [dictLookup, optOr]
  | cons p rest ih =>
    obtain ⟨a, b⟩ := p
    by_cases h : a = k <;> simp [dictLookup, h, ih, optOr]

theorem dictLookup_foldl {κ α : Type} [DecidableEq κ]
    (k : κ) (pairs : List (κ × α)) (acc : List (κ × α)) :
    dictLookup k (pairs.foldl (fun d p => dictInsert p.1 p.2 d) acc) =
      optOr (dictLookup k pairs.reverse) (dictLookup k acc) := by
  induction pairs generalizing acc with
  | nil => simp [dictLookup, optOr]
  | cons p rest ih =>
    obtain ⟨a, b⟩ := p
    have hstep : dictLookup k (dictInsert a b acc) =
        optOr (dictLookup k [(a, b)]) (dictLookup k acc) := by
      by_cases h : a = k <;>
        simp [dictLookup_dictInsert, dictLookup, h, optOr]
    calc dictLookup k (List.foldl (fun d p => dictInsert p.1 p.2 d)
            (dictInsert a b acc) rest)
        = optOr (dictLookup k rest.reverse) (dictLookup k (dictInsert a b acc)) :=
          ih (dictInsert a b acc)
      _ = optOr (dictLookup k rest.reverse)
            (optOr (dictLookup k [(a, b)]) (dictLookup k acc)) := by rw [hstep]
      _ = optOr (optOr (dictLookup k rest.reverse) (dictLookup k [(a, b)]))
            (dictLookup k acc) := by rw [optOr_assoc]
      _ = optOr (dictLookup k ((a, b) :: rest).reverse) (dictLookup k acc) := by
            rw [List.reverse_cons, dictLookup_append]

theorem dictLookup_buildDict {κ α : Type} [DecidableEq κ]
    (k : κ) (pairs : List (κ × α)) :
    dictLookup k (buildDict pairs) = dictLookup k pairs.reverse := by
  rw [buildDict, dictLookup_foldl]
  exact optOr_none_right _

theorem mem_of_dictLookup {κ α : Type} [DecidableEq κ]
    {k : κ} {v : α} {l : List (κ × α)} (h : dictLookup k l = some v) :
    (k, v) ∈ l := by
  induction l with
  | nil => simp [dictLookup] at h
  | cons p rest ih =>
    obtain ⟨a, b⟩ := p
    by_cases hak : a = k
    · simp [dictLookup, hak] at h
      simp [hak, h]
    · simp [dictLookup, hak] at h
      exact List.mem_cons_of_mem _ (ih h)

theorem dictLookup_of_mem_of_unique {κ α : Type} [DecidableEq κ]
    {k : κ} {v : α} {l : List (κ × α)} (hmem : (k, v) ∈ l)
    (huniq : ∀ v', (k, v') ∈ l → v' = v) :
    dictLookup k l = some v := by
  induction l with
  | nil => simp at hmem
  | cons p rest ih =>
    obtain ⟨a, b⟩ := p
    by_cases hak : a = k
    · subst hak
      have : b = v := huniq b (List.mem_cons_self _ _)
      simp [dictLookup, this]
    · have hmem' : (k, v) ∈ rest := by
        rcases List.mem_cons.mp hmem with h | h
        · exact absurd (congrArg Prod.fst h).symm hak
        · exact h
      have huniq' : ∀ v', (k, v') ∈ rest → v' = v := fun v' hv' =>
        huniq v' (List.mem_cons_of_mem _ hv')
      simp [dictLookup, hak, ih hmem' huniq']

theorem mem_dictInsert {κ α : Type} [DecidableEq κ]
    {a k : κ} {b : α} {v : α} {l : List (κ × α)}
    (h : (a, b) ∈ dictInsert k v l) : (a, b) = (k, v) ∨ (a, b) ∈ l := by
  induction l with
  | nil => simpa [dictInsert] using h
  | cons p rest ih =>
    obtain ⟨x, y⟩ := p
    by_cases hk : x = k
    · subst hk
      simp [dictInsert] at h
      rcases h with ⟨h1, h2⟩ | h
      · exact Or.inl (by simp [h1, h2])
      · exact Or.inr (List.mem_cons_of_mem _ h)
    · simp [dictInsert, hk] at h
      rcases h with ⟨h1, h2⟩ | h
      · exact Or.inr (by simp [h1, h2])
      · rcases ih h with h' | h'
        · exact Or.inl h'
        · exact Or.inr (List.mem_cons_of_mem _ h')

theorem mem_buildDict_subset {κ α : Type} [DecidableEq κ]
    {a : κ} {b : α} {pairs : List (κ × α)}
    (h : (a, b) ∈ buildDict pairs) : (a, b) ∈ pairs := by
  suffices H : ∀ (acc : List (κ × α)),
      (a, b) ∈ pairs.foldl (fun d p => dictInsert p.1 p.2 d) acc →
      (a, b) ∈ pairs ∨ (a, b) ∈ acc by
    rcases H [] h with h' | h'
    · exact h'
    · simp at h'
  clear h
  induction pairs with
  | nil => intro acc hacc; exact Or.inr hacc
  | cons p rest ih =>
    intro acc hacc
    rcases ih (dictInsert p.1 p.2 acc) hacc with h' | h'
    · exact Or.inl (List.mem_cons_of_mem _ h')
    · rcases mem_dictInsert h' with h'' | h''
      · exact Or.inl (by simp [h''])
      · exact Or.inr h''

theorem mem_enumFromIdx_functional {α : Type} {n i : Nat} {a b : α}
    {xs : List α} (ha : (i, a) ∈ enumFromIdx n xs)
    (hb : (i, b) ∈ enumFromIdx n xs) : a = b := by
  induction xs generalizing n with
  | nil => simp [enumFromIdx] at ha
  | cons x rest ih =>
    have hlt : ∀ (m j : Nat) (c : α) (ys : List α),
        (j, c) ∈ enumFromIdx m ys → m ≤ j := by
      intro m j c ys
      induction ys generalizing m with
      | nil => intro h; simp [enumFromIdx] at h
      | cons y t iht =>
        intro h
        simp [enumFromIdx] at h
        rcases h with ⟨h1, _⟩ | h
        · omega
        · have := iht (m + 1) h
          omega
    simp [enumFromIdx] at ha hb
    rcases ha with ⟨hi, hA⟩ | ha <;> rcases hb with ⟨hj, hB⟩ | hb
    · rw [hA, hB]
    · exfalso; have := hlt (n + 1) i b rest hb; omega
    · exfalso; have := hlt (n + 1) i a rest ha; omega
    · exact ih ha hb

/-- Members of `labelToId labels` are exactly swapped enumeration pairs, so
the id of any key identifies a position in `labels`. -/
theorem labelToId_mem {labels : List String} {k : String} {i : Nat}
    (h : (k, i) ∈ labelToId labels) : (i, k) ∈ pyEnumerate labels := by
  have h' := mem_buildDict_subset h
  simp at h'
  obtain ⟨x, y, hxy, hx, hy⟩ := h'
  rw [← hx, ← hy]
  exact hxy

/-! ### Feature preparers

The external tokenizer object is opaque to this repository; the embedding
records its presence (`self.tokenizer` may be `None`) and reifies each call
made to it as a record of the arguments the repository code passes. -/

/-- An opaque stand-in for the externally supplied tokenizer object. -/
structure Tokenizer where
  tokenizerId : Nat
  deriving DecidableEq, Repr

/-- The arguments of the tokenizer call in classification.py line 83:
`self.tokenizer(examples["text"], padding="max_length", truncation=True,
max_length=512)`. -/
structure ClsTokCall where
  texts : List String
  padding : String
  truncation : Bool
  max_length : Nat
  deriving DecidableEq, Repr

/-- Output of the classification feature preparer: the reified tokenizer call
plus the integer labels written into `tokenized_data["label"]`. -/
structure ClsTokenizedBatch where
  call : ClsTokCall
  label : List Nat
  deriving DecidableEq, Repr

/-- One evaluation of `self.label_to_id[label]` (classification.py line 84):
subscripting `None` is a TypeError, a missing key is a KeyError. -/
def labelLookup (label_to_id : Option (List (String × Nat))) (lbl : String) :
    Except LoadError Nat :=
  match label_to_id with
  | none => .error .noneNotSubscriptable
  | some d =>
    match dictLookup lbl d with
    | some i => .ok i
    | none => .error (.keyError lbl)

/-- The list comprehension
`[self.label_to_id[label] for label in examples["label"]]`: elements are
evaluated left to right and the first failure aborts the whole batch. -/
def mapLabels (label_to_id : Option (List (String × Nat))) :
    List String → Except LoadError (List Nat)
  | [] => .ok []
  | l :: rest =>
    match labelLookup label_to_id l with
    | .error e => .error e
    | .ok i =>
      match mapLabels label_to_id rest with
      | .error e => .error e
      | .ok is => .ok (i :: is)

/-- classification.py lines 82-85, `tokenize_function(examples)`:
call the tokenizer on the batch's texts (a TypeError if `self.tokenizer` is
`None`), then map every label through `self.label_to_id`. -/
def tokenize_function (tok : Option Tokenizer)
    (label_to_id : Option (List (String × Nat)))
    (texts labels : List String) : Except LoadError ClsTokenizedBatch :=
  match tok with
  | none => .error .tokenizerNotCallable
  | some _ =>
    match mapLabels label_to_id labels with
    | .error e => .error e
    | .ok ids =>
      .ok { call := { texts := texts, padding := "max_length",
                      truncation := true, max_length := 512 },
            label := ids }

/-- The arguments of the tokenizer call in commonsense_reasoning.py
lines 158-163: `self.tokenizer(examples["premise"], examples["hypothesis"],
truncation=True, padding=False)`. -/
structure PairTokCall where
  premises : List String
  hypotheses : List String
  truncation : Bool
  padding : Bool
  deriving DecidableEq, Repr

/-- Output of the commonsense feature preparer: the reified tokenizer call
plus the labels copied into `tokenized_inputs["labels"]`. -/
structure PairTokenizedBatch where
  call : PairTokCall
  labels : List Int
  deriving DecidableEq, Repr

/-- commonsense_reasoning.py lines 143-171, `prepare_train_features`:
an explicit `Tokenizer not initialized` raise when `self.tokenizer` is falsy,
then the joint tokenizer call, then the labels are carried through. -/
def prepare_train_features (tok : Option Tokenizer)
    (premises hypotheses : List String) (labels : List Int) :
    Except LoadError PairTokenizedBatch :=
  match tok with
  | none => .error .tokenizerNotInitialized
  | some _ =>
    .ok { call := { premises := premises, hypotheses := hypotheses,
                    truncation := true, padding := false },
          labels := labels }

/-! ### Directory loaders

`os.listdir` is modelled as a list of named entries with raw contents; the
external format parsers (json, pandas, pyarrow, yaml, sqlite queries) are a
record of fallible decoding functions, since their internals live outside this
repository.  Each branch of the extension dispatch is taken from the
if/elif chain of `load_dataset`, in source order.  Handles acquired by the
repository code itself are counted: the three `with open(...)` blocks
(.jsonl, .json, .yaml/.yml) open and close one file handle even on error,
while the `.db` branch calls `sqlite3.connect` and contains no `close()`. -/

/-- Python `str.endswith`, kernel-computable. -/
def pyEndsWith (s suffix : String) : Bool :=
  decide (List.IsSuffix suffix.data s.data)

/-- One entry of the dataset directory: a file name and its raw content. -/
structure DirEntry where
  name : String
  content : String
  deriving DecidableEq, Repr

/-- The external per-format parsers, one per recognized extension family.
`ρ` is the record type of the task (`CRecord` or `PRecord`). -/
structure Decoders (ρ : Type) where
  jsonl : String → Except LoadError (List ρ)
  csv : String → Except LoadError (List ρ)
  parquet : String → Except LoadError (List ρ)
  json : String → Except LoadError (List ρ)
  xml : String → Except LoadError (List ρ)
  yaml : String → Except LoadError (List ρ)
  tsv : String → Except LoadError (List ρ)
  xls : String → Except LoadError (List ρ)
  db : String → Except LoadError (List ρ)
  feather : String → Except LoadError (List ρ)

/-- Outcome of decoding one directory entry: the decoded records (or the
parser's error) together with how many handles the repository code opened and
closed while processing this entry. -/
structure DecodeStep (ρ : Type) where
  result : Except LoadError (List ρ)
  opened : Nat
  closed : Nat
  deriving Repr

/-- The extension dispatch of `load_dataset` (classification.py lines 96-144,
commonsense_reasoning.py lines 90-130; both chains test the same suffixes in
the same order).  A file matching no branch is skipped: it yields no records
and no error. -/
def decodeFile {ρ : Type} (d : Decoders ρ) (e : DirEntry) : DecodeStep ρ :=
  if pyEndsWith e.name ".jsonl" then
    { result := d.jsonl e.content, opened := 1, closed := 1 }
  else if pyEndsWith e.name ".csv" then
    { result := d.csv e.content, opened := 0, closed := 0 }
  else if pyEndsWith e.name ".parquet" then
    { result := d.parquet e.content, opened := 0, closed := 0 }
  else if pyEndsWith e.name ".json" then
    { result := d.json e.content, opened := 1, closed := 1 }
  else if pyEndsWith e.name ".xml" then
    { result := d.xml e.content, opened := 0, closed := 0 }
  else if pyEndsWith e.name ".yaml" || pyEndsWith e.name ".yml" then
    { result := d.yaml e.content, opened := 1, closed := 1 }
  else if pyEndsWith e.name ".tsv" then
    { result := d.tsv e.content, opened := 0, closed := 0 }
  else if pyEndsWith e.name ".xls" || pyEndsWith e.name ".xlsx" then
    { result := d.xls e.content, opened := 0, closed := 0 }
  else if pyEndsWith e.name ".db" then
    { result := d.db e.content, opened := 1, closed := 0 }
  else if pyEndsWith e.name ".feather" then
    { result := d.feather e.content, opened := 0, closed := 0 }
  else
    { result := .ok [], opened := 0, closed := 0 }

/-- The accumulation loop `for filename in os.listdir(dataset_path)`:
records are appended in enumeration order; the first exception aborts the
loop (later files are never touched). -/
def accumulate {ρ : Type} (d : Decoders ρ) : List DirEntry → DecodeStep ρ
  | [] => { result := .ok [], opened := 0, closed := 0 }
  | e :: rest =>
    let s := decodeFile d e
    match s.result with
    | .error err => { result := .error err, opened := s.opened, closed := s.closed }
    | .ok recs =>
      let a := accumulate d rest
      match a.result with
      | .error err =>
        { result := .error err, opened := s.opened + a.opened,
          closed := s.closed + a.closed }
      | .ok more =>
        { result := .ok (recs ++ more), opened := s.opened + a.opened,
          closed := s.closed + a.closed }

/-- A dataset directory: its entries, plus what `load_from_disk` would yield
for it (the pre-serialized snapshot, an external artifact of the path). -/
structure Dir (ρ : Type) where
  entries : List DirEntry
  snapshot : Except LoadError (List ρ)

/-- `os.path.isfile(os.path.join(dataset_path, "dataset_info.json"))`:
the snapshot marker is present among the directory's files. -/
def hasMarker {ρ : Type} (dir : Dir ρ) : Bool :=
  dir.entries.any (fun e => e.name == "dataset_info.json")

/-- The model configuration object (`self.model.config`): its `label2id` and
`id2label` dict attributes. -/
structure ModelConfig where
  label2id : List (String × Nat)
  id2label : List (Nat × String)
  deriving DecidableEq, Repr

/-- classification.py line 80: `self.label_to_id = self.model.config.label2id
if self.model and self.model.config.label2id else None` — an empty dict is
falsy in Python. -/
def initialLabelMap (model : Option ModelConfig) :
    Option (List (String × Nat)) :=
  match model with
  | some cfg => if cfg.label2id.isEmpty then none else some cfg.label2id
  | none => none

/-- Outcome of the classification `load_dataset`: the value returned or the
exception raised, the model configuration afterwards, and how many handles
opened by the loader's own code are still open. -/
structure ClsOutcome where
  result : Except LoadError ClsTokenizedBatch
  config : Option ModelConfig
  openHandles : Nat
  deriving Repr

/-- classification.py lines 48-158, `load_dataset`.  The snapshot branch maps
`tokenize_function` over the loaded dataset (modelled as one batch) using the
label map captured at line 80; the listing branch decodes every entry,
derives a fresh `label_to_id` from all observed labels (lines 146-148),
writes it and its inverse onto the model config when a model is present
(lines 149-153), and then maps `tokenize_function`.  Any exception escapes
via the bare `raise` with the configuration mutation of the failed path
undone nowhere (but also performed nowhere before the decode loop ends). -/
def cls_load_dataset (tok : Option Tokenizer) (model : Option ModelConfig)
    (d : Decoders CRecord) (dir : Dir CRecord) : ClsOutcome :=
  let label_to_id0 := initialLabelMap model
  if hasMarker dir then
    match dir.snapshot with
    | .error e => { result := .error e, config := model, openHandles := 0 }
    | .ok recs =>
      { result := tokenize_function tok label_to_id0
          (recs.map (fun r => r.text)) (recs.map (fun r => r.label)),
        config := model, openHandles := 0 }
  else
    let acc := accumulate d dir.entries
    match acc.result with
    | .error e =>
      { result := .error e, config := model,
        openHandles := acc.opened - acc.closed }
    | .ok data =>
      let ltid := labelToId (data.map (fun r => r.label))
      let config' : Option ModelConfig :=
        match model with
        | some _ => some { label2id := ltid, id2label := idToLabel ltid }
        | none => none
      { result := tokenize_function tok (some ltid)
          (data.map (fun r => r.text)) (data.map (fun r => r.label)),
        config := config', openHandles := acc.opened - acc.closed }

/-- Outcome of the commonsense `load_dataset` (no model-config side effect
exists in that loader). -/
structure CrOutcome where
  result : Except LoadError PairTokenizedBatch
  openHandles : Nat
  deriving Repr

/-- commonsense_reasoning.py lines 45-141, `load_dataset`: the same dispatch
and accumulation, mapped through `prepare_train_features`. -/
def cr_load_dataset (tok : Option Tokenizer)
    (d : Decoders PRecord) (dir : Dir PRecord) : CrOutcome :=
  if hasMarker dir then
    match dir.snapshot with
    | .error e => { result := .error e, openHandles := 0 }
    | .ok recs =>
      { result := prepare_train_features tok
          (recs.map (fun r => r.premise)) (recs.map (fun r => r.hypothesis))
          (recs.map (fun r => r.label)),
        openHandles := 0 }
  else
    let acc := accumulate d dir.entries
    match acc.result with
    | .error e => { result := .error e, openHandles := acc.opened - acc.closed }
    | .ok data =>
      { result := prepare_train_features tok
          (data.map (fun r => r.premise)) (data.map (fun r => r.hypothesis))
          (data.map (fun r => r.label)),
        openHandles := acc.opened - acc.closed }

/-! ### Helper lemmas about the loaders -/

/-- In the accumulation loop, the first failing decode aborts with its own
error, whatever comes after it. -/
theorem accumulate_first_error {ρ : Type} (d : Decoders ρ)
    (pre : List DirEntry) (f : DirEntry) (post : List DirEntry)
    (err : LoadError)
    (hok : ∀ e ∈ pre, ∃ r, (decodeFile d e).result = Except.ok r)
    (hf : (decodeFile d f).result = .error err) :
    (accumulate d (pre ++ f :: post)).result = .error err := by
  induction pre with
  | nil =>
    simp only [List.nil_append, accumulate]
    rw [hf]
  | cons e pre ih =>
    obtain ⟨r, hr⟩ := hok e (List.mem_cons_self _ _)
    have ih' := ih (fun x hx => hok x (List.mem_cons_of_mem _ hx))
    simp only [List.cons_append, accumulate]
    rw [hr]
    have heq : pre.append (f :: post) = pre ++ f :: post := rfl
    rw [heq, ih']

/-- If every label of the batch is a key of the dict, the comprehension
succeeds and returns the looked-up ids, in order. -/
theorem mapLabels_ok_of_forall (ltid : List (String × Nat))
    (labels : List String)
    (h : ∀ l ∈ labels, ∃ i, dictLookup l ltid = some i) :
    ∃ ids, mapLabels (some ltid) labels = .ok ids ∧
      List.Forall₂ (fun l i => dictLookup l ltid = some i) labels ids := by
  induction labels with
  | nil => exact ⟨[], rfl, List.Forall₂.nil⟩
  | cons l rest ih =>
    obtain ⟨i, hi⟩ := h l (List.mem_cons_self _ _)
    obtain ⟨ids, hids, hfa⟩ := ih (fun x hx => h x (List.mem_cons_of_mem _ hx))
    refine ⟨i :: ids, ?_, List.Forall₂.cons hi hfa⟩
    simp only [mapLabels, labelLookup]
    rw [hi]
    simp only []
    rw [hids]

/-- If some label of the batch has no entry in the dict, the comprehension
raises (the KeyError of the first missing label). -/
theorem mapLabels_error_of_missing (ltid : List (String × Nat))
    (labels : List String) (l : String) (hl : l ∈ labels)
    (hmiss : dictLookup l ltid = none) :
    ∃ e, mapLabels (some ltid) labels = .error e := by
  induction labels with
  | nil => simp at hl
  | cons x rest ih =>
    cases hx : labelLookup (some ltid) x with
    | error e =>
      refine ⟨e, ?_⟩
      simp only [mapLabels]
      rw [hx]
    | ok i =>
      rcases List.mem_cons.mp hl with rfl | hl'
      · exfalso
        simp only [labelLookup] at hx
        rw [hmiss] at hx
        exact Except.noConfusion hx
      · obtain ⟨e, he⟩ := ih hl'
        refine ⟨e, ?_⟩
        simp only [mapLabels]
        rw [hx]
        simp only []
        rw [he]

/-! ### Concrete artifacts used to evaluate the loaders at specific inputs -/

/-- Parsers that succeed on every file with zero records. -/
def okDecoders (ρ : Type) : Decoders ρ where
  jsonl := fun _ => .ok []
  csv := fun _ => .ok []
  parquet := fun _ => .ok []
  json := fun _ => .ok []
  xml := fun _ => .ok []
  yaml := fun _ => .ok []
  tsv := fun _ => .ok []
  xls := fun _ => .ok []
  db := fun _ => .ok []
  feather := fun _ => .ok []

/-- Parsers whose jsonl decoder raises, as on a malformed line. -/
def failJsonlDecoders (ρ : Type) : Decoders ρ :=
  { okDecoders ρ with jsonl := fun _ => .error (.decode "malformed JSON") }

/-- Classification parsers whose sqlite path yields one row. -/
def dbDecodersC : Decoders CRecord :=
  { okDecoders CRecord with
      db := fun _ => .ok [{ text := "a sentence", label := "lbl" }] }

/-- Commonsense parsers whose sqlite path yields one row. -/
def dbDecodersP : Decoders PRecord :=
  { okDecoders PRecord with
      db := fun _ => .ok [{ premise := "p", hypothesis := "h", label := 0 }] }

/-- A directory holding a single sqlite file, classification task. -/
def dbDirC : Dir CRecord where
  entries := [{ name := "data.db", content := "" }]
  snapshot := .ok []

/-- A directory holding a single sqlite file, commonsense task. -/
def dbDirP : Dir PRecord where
  entries := [{ name := "data.db", content := "" }]
  snapshot := .ok []

/-- A directory holding a single malformed jsonl file, classification task. -/
def badDirC : Dir CRecord where
  entries := [{ name := "train.jsonl", content := "not json" }]
  snapshot := .ok []

/-- A directory holding a single malformed jsonl file, commonsense task. -/
def badDirP : Dir PRecord where
  entries := [{ name := "train.jsonl", content := "not json" }]
  snapshot := .ok []

/-- A snapshot directory that also contains a syntactically broken csv
sibling next to the marker. -/
def markerDirBrokenC : Dir CRecord where
  entries := [{ name := "dataset_info.json", content := "" },
              { name := "broken.csv", content := "%%%" }]
  snapshot := .ok [{ text := "hello", label := "pos" }]

/-- The same snapshot directory without the broken sibling. -/
def markerDirCleanC : Dir CRecord where
  entries := [{ name := "dataset_info.json", content := "" }]
  snapshot := .ok [{ text := "hello", label := "pos" }]

/-- A commonsense snapshot directory with a broken sibling. -/
def markerDirBrokenP : Dir PRecord where
  entries := [{ name := "dataset_info.json", content := "" },
              { name := "broken.csv", content := "%%%" }]
  snapshot := .ok [{ premise := "p", hypothesis := "h", label := 1 }]

/-- The same commonsense snapshot directory without the broken sibling. -/
def markerDirCleanP : Dir PRecord where
  entries := [{ name := "dataset_info.json", content := "" }]
  snapshot := .ok [{ premise := "p", hypothesis := "h", label := 1 }]

/-! ### Claims -/

/-- C1 (code bug): the claim states that the non-snapshot path of
`load_dataset` derives a LabelIndex assigning each unique label a distinct
integer in `[0, num_unique_labels)` in first-seen order of the unique labels.
The code builds the dict from `enumerate` over ALL labels without
deduplication, so each label receives the index of its LAST occurrence among
all records.  On the labels `["pos", "neg", "pos"]` there are 2 unique labels
(`["pos", "neg"].length = 2` after deduplication) yet `"pos"` — the first
distinct label seen, which the claim says gets 0 — is mapped to 2, and
2 is outside `[0, 2)`. -/
theorem c1_labelToId_last_occurrence_bug :
    labelToId ["pos", "neg", "pos"] = [("pos", 2), ("neg", 1)] ∧
    dictLookup "pos" (labelToId ["pos", "neg", "pos"]) = some 2 ∧
    (["pos", "neg", "pos"] : List String).dedup.length = 2 ∧
    ¬ 2 < 2 := by
  refine ⟨rfl, rfl, by decide, by omega⟩

/-- C4 (confirmed): for every label present as a key of the derived
LabelIndex, mapping it to its id and back through the inverse dict
(`id2label`, classification.py line 153) returns the original label: the
ids are the positions of last occurrences in the data, which determine their
labels uniquely, so the swapped dict is a true inverse. -/
theorem c4_label_id_roundtrip (labels : List String) (lbl : String) (i : Nat)
    (h : dictLookup lbl (labelToId labels) = some i) :
    dictLookup i (idToLabel (labelToId labels)) = some lbl := by
  have hmem : (lbl, i) ∈ labelToId labels := mem_of_dictLookup h
  have henum : (i, lbl) ∈ pyEnumerate labels := labelToId_mem hmem
  rw [idToLabel, dictLookup_buildDict]
  apply dictLookup_of_mem_of_unique
  · rw [List.mem_reverse, List.mem_map]
    exact ⟨(lbl, i), hmem, rfl⟩
  · intro k' hk'
    rw [List.mem_reverse, List.mem_map] at hk'
    obtain ⟨⟨x, y⟩, hxy, hswap⟩ := hk'
    have hx : x = k' := congrArg Prod.snd hswap
    have hy : y = i := congrArg Prod.fst hswap
    rw [hx, hy] at hxy
    exact mem_enumFromIdx_functional (labelToId_mem hxy) henum

/-- Witness for C4 at a concrete input: on the labels of the C1
counterexample the roundtrip still holds. -/
theorem c4_label_id_roundtrip_witness :
    dictLookup 2 (idToLabel (labelToId ["pos", "neg", "pos"])) = some "pos" :=
  c4_label_id_roundtrip ["pos", "neg", "pos"] "pos" 2 rfl

/-- The twelve file suffixes the dispatch chains of both loaders react to. -/
def recognizedExts : List String :=
  [".jsonl", ".csv", ".parquet", ".json", ".xml", ".yaml", ".yml",
   ".tsv", ".xls", ".xlsx", ".db", ".feather"]

/-- C8 (confirmed): a file whose name matches none of the recognized
suffixes falls through every branch of the dispatch chain: it produces no
error, contributes zero records, opens no handle, and the accumulation over
the remaining files is exactly what it would have been without the file. -/
theorem c8_unrecognized_extension_skipped {ρ : Type} (d : Decoders ρ)
    (e : DirEntry) (rest : List DirEntry)
    (h : ∀ ext ∈ recognizedExts, pyEndsWith e.name ext = false) :
    decodeFile d e = { result := .ok [], opened := 0, closed := 0 } ∧
    accumulate d (e :: rest) = accumulate d rest := by
  have h1 := h ".jsonl" (by simp [recognizedExts])
  have h2 := h ".csv" (by simp [recognizedExts])
  have h3 := h ".parquet" (by simp [recognizedExts])
  have h4 := h ".json" (by simp [recognizedExts])
  have h5 := h ".xml" (by simp [recognizedExts])
  have h6 := h ".yaml" (by simp [recognizedExts])
  have h7 := h ".yml" (by simp [recognizedExts])
  have h8 := h ".tsv" (by simp [recognizedExts])
  have h9 := h ".xls" (by simp [recognizedExts])
  have h10 := h ".xlsx" (by simp [recognizedExts])
  have h11 := h ".db" (by simp [recognizedExts])
  have h12 := h ".feather" (by simp [recognizedExts])
  have hdec : decodeFile d e = { result := .ok [], opened := 0, closed := 0 } := by
    simp [decodeFile, h1, h2, h3, h4, h5, h6, h7, h8, h9, h10, h11, h12]
  refine ⟨hdec, ?_⟩
  show accumulate d (e :: rest) = accumulate d rest
  simp only [accumulate, hdec]
  rcases hrest : accumulate d rest with ⟨res, op, cl⟩
  cases res <;> simp

/-- Witness for C8: a `.txt` file is skipped and leaves the accumulation
over the remaining files untouched. -/
theorem c8_unrecognized_extension_skipped_witness :
    decodeFile (okDecoders CRecord) { name := "notes.txt", content := "x" } =
      { result := .ok [], opened := 0, closed := 0 } ∧
    accumulate (okDecoders CRecord)
        ({ name := "notes.txt", content := "x" } :: dbDirC.entries) =
      accumulate (okDecoders CRecord) dbDirC.entries :=
  c8_unrecognized_extension_skipped (okDecoders CRecord)
    { name := "notes.txt", content := "x" } dbDirC.entries (by decide)

/-- C2 (confirmed): in either task, if some per-file decode raises (all files
before it decoding fine), the whole load aborts with exactly that error — no
partial dataset is produced — and in the classification task the model
configuration is left untouched, because the `label2id`/`id2label` assignment
(classification.py lines 149-153) sits after the whole decode loop and is
never reached on the failing path. -/
theorem c2_decode_failure_aborts_atomically
    (tok : Option Tokenizer) (model : Option ModelConfig)
    (dc : Decoders CRecord) (dirc : Dir CRecord)
    (pre : List DirEntry) (f : DirEntry) (post : List DirEntry)
    (err : LoadError)
    (dp : Decoders PRecord) (dirp : Dir PRecord)
    (pre2 : List DirEntry) (f2 : DirEntry) (post2 : List DirEntry)
    (err2 : LoadError)
    (hm : hasMarker dirc = false)
    (he : dirc.entries = pre ++ f :: post)
    (hok : ∀ e ∈ pre, ∃ r, (decodeFile dc e).result = Except.ok r)
    (hf : (decodeFile dc f).result = .error err)
    (hm2 : hasMarker dirp = false)
    (he2 : dirp.entries = pre2 ++ f2 :: post2)
    (hok2 : ∀ e ∈ pre2, ∃ r, (decodeFile dp e).result = Except.ok r)
    (hf2 : (decodeFile dp f2).result = .error err2) :
    (cls_load_dataset tok model dc dirc).result = .error err ∧
    (cls_load_dataset tok model dc dirc).config = model ∧
    (cr_load_dataset tok dp dirp).result = .error err2 := by
  have hacc := accumulate_first_error dc pre f post err hok hf
  have hacc2 := accumulate_first_error dp pre2 f2 post2 err2 hok2 hf2
  rw [← he] at hacc
  rw [← he2] at hacc2
  refine ⟨?_, ?_, ?_⟩
  · simp only [cls_load_dataset, hm, Bool.false_eq_true, if_false]
    rw [hacc]
  · simp only [cls_load_dataset, hm, Bool.false_eq_true, if_false]
    rw [hacc]
  · simp only [cr_load_dataset, hm2, Bool.false_eq_true, if_false]
    rw [hacc2]

/-- Witness for C2: a directory whose only file is a malformed `.jsonl`
aborts both loaders with the parser's error and leaves the (absent) model
configuration as it was. -/
theorem c2_decode_failure_aborts_atomically_witness :
    (cls_load_dataset none none (failJsonlDecoders CRecord) badDirC).result =
      .error (.decode "malformed JSON") ∧
    (cls_load_dataset none none (failJsonlDecoders CRecord) badDirC).config =
      none ∧
    (cr_load_dataset none (failJsonlDecoders PRecord) badDirP).result =
      .error (.decode "malformed JSON") :=
  c2_decode_failure_aborts_atomically none none
    (failJsonlDecoders CRecord) badDirC
    [] { name := "train.jsonl", content := "not json" } []
    (.decode "malformed JSON")
    (failJsonlDecoders PRecord) badDirP
    [] { name := "train.jsonl", content := "not json" } []
    (.decode "malformed JSON")
    rfl rfl (fun e he => absurd he (List.not_mem_nil e)) rfl
    rfl rfl (fun e he => absurd he (List.not_mem_nil e)) rfl

/-- C3 (confirmed): when the snapshot marker `dataset_info.json` is present,
both loaders take the `load_from_disk` branch: the outcome depends only on
the snapshot (and tokenizer/model), never on the per-file parsers or on any
sibling file's content, and no handle tracked by the loader is opened.  Two
directories with the marker and the same snapshot — one with a broken
sibling of a recognized extension, one without — load identically under
arbitrary (even always-failing) parsers. -/
theorem c3_snapshot_marker_bypasses_decoding
    (tok : Option Tokenizer) (model : Option ModelConfig)
    (d1 d2 : Decoders CRecord) (dir1 dir2 : Dir CRecord)
    (dp1 dp2 : Decoders PRecord) (dirp1 dirp2 : Dir PRecord)
    (h1 : hasMarker dir1 = true) (h2 : hasMarker dir2 = true)
    (hs : dir1.snapshot = dir2.snapshot)
    (g1 : hasMarker dirp1 = true) (g2 : hasMarker dirp2 = true)
    (gs : dirp1.snapshot = dirp2.snapshot) :
    cls_load_dataset tok model d1 dir1 = cls_load_dataset tok model d2 dir2 ∧
    (cls_load_dataset tok model d1 dir1).openHandles = 0 ∧
    cr_load_dataset tok dp1 dirp1 = cr_load_dataset tok dp2 dirp2 ∧
    (cr_load_dataset tok dp1 dirp1).openHandles = 0 := by
  refine ⟨?_, ?_, ?_, ?_⟩
  · simp only [cls_load_dataset, h1, h2, if_true, hs]
  · simp only [cls_load_dataset, h1, if_true]
    cases hsnap : dir1.snapshot <;> simp [hsnap]
  · simp only [cr_load_dataset, g1, g2, if_true, gs]
  · simp only [cr_load_dataset, g1, if_true]
    cases hsnap : dirp1.snapshot <;> simp [hsnap]

/-- Witness for C3: a snapshot directory with a syntactically broken `.csv`
sibling, loaded under parsers that fail on every file, equals the load of the
clean snapshot directory under parsers that succeed on every file. -/
theorem c3_snapshot_marker_bypasses_decoding_witness :
    cls_load_dataset (some { tokenizerId := 0 }) none
        (failJsonlDecoders CRecord) markerDirBrokenC =
      cls_load_dataset (some { tokenizerId := 0 }) none
        (okDecoders CRecord) markerDirCleanC ∧
    (cls_load_dataset (some { tokenizerId := 0 }) none
        (failJsonlDecoders CRecord) markerDirBrokenC).openHandles = 0 ∧
    cr_load_dataset (some { tokenizerId := 0 })
        (failJsonlDecoders PRecord) markerDirBrokenP =
      cr_load_dataset (some { tokenizerId := 0 })
        (okDecoders PRecord) markerDirCleanP ∧
    (cr_load_dataset (some { tokenizerId := 0 })
        (failJsonlDecoders PRecord) markerDirBrokenP).openHandles = 0 :=
  c3_snapshot_marker_bypasses_decoding (some { tokenizerId := 0 }) none
    (failJsonlDecoders CRecord) (okDecoders CRecord)
    markerDirBrokenC markerDirCleanC
    (failJsonlDecoders PRecord) (okDecoders PRecord)
    markerDirBrokenP markerDirCleanP
    rfl rfl rfl rfl rfl rfl

/-- C5 (confirmed): the classification feature preparer always calls the
tokenizer on the batch's texts with `padding="max_length"`,
`truncation=True`, `max_length=512`; when every label of the batch is a key
of the label map it succeeds and yields exactly the looked-up integer ids,
and when some label of the batch is missing from the map it raises instead
of producing a row. -/
theorem c5_cls_feature_preparation (t : Tokenizer)
    (ltid : List (String × Nat)) (texts labels : List String) :
    ((∀ l ∈ labels, ∃ i, dictLookup l ltid = some i) →
      ∃ out, tokenize_function (some t) (some ltid) texts labels = .ok out ∧
        out.call.texts = texts ∧ out.call.padding = "max_length" ∧
        out.call.truncation = true ∧ out.call.max_length = 512 ∧
        List.Forall₂ (fun l i => dictLookup l ltid = some i) labels
          out.label) ∧
    ((∃ l ∈ labels, dictLookup l ltid = none) →
      ∃ e, tokenize_function (some t) (some ltid) texts labels = .error e) := by
  constructor
  · intro h
    obtain ⟨ids, hids, hfa⟩ := mapLabels_ok_of_forall ltid labels h
    refine ⟨{ call := { texts := texts, padding := "max_length",
                        truncation := true, max_length := 512 },
              label := ids }, ?_, rfl, rfl, rfl, rfl, hfa⟩
    simp only [tokenize_function]
    rw [hids]
  · rintro ⟨l, hl, hmiss⟩
    obtain ⟨e, he⟩ := mapLabels_error_of_missing ltid labels l hl hmiss
    refine ⟨e, ?_⟩
    simp only [tokenize_function]
    rw [he]

/-- Witness for C5: with label map `[("pos", 0)]`, a batch labelled `"pos"`
is tokenized with the fixed arguments and label id 0, and a batch labelled
`"neg"` raises. -/
theorem c5_cls_feature_preparation_witness :
    (∃ out, tokenize_function (some { tokenizerId := 0 }) (some [("pos", 0)])
        ["hello"] ["pos"] = .ok out ∧
      out.call.texts = ["hello"] ∧ out.call.padding = "max_length" ∧
      out.call.truncation = true ∧ out.call.max_length = 512 ∧
      List.Forall₂ (fun l i => dictLookup l [("pos", 0)] = some i) ["pos"]
        out.label) ∧
    (∃ e, tokenize_function (some { tokenizerId := 0 }) (some [("pos", 0)])
        ["hello"] ["neg"] = .error e) := by
  constructor
  · exact (c5_cls_feature_preparation { tokenizerId := 0 } [("pos", 0)]
      ["hello"] ["pos"]).1
      (by intro l hl; rw [List.mem_singleton] at hl; subst hl; exact ⟨0, rfl⟩)
  · exact (c5_cls_feature_preparation { tokenizerId := 0 } [("pos", 0)]
      ["hello"] ["neg"]).2 ⟨"neg", List.mem_singleton_self _, rfl⟩

/-- C6 (confirmed): the commonsense feature preparer, given an initialized
tokenizer, calls it on the premise/hypothesis pair jointly with
`truncation=True` and `padding=False`, and copies the integer labels through
unchanged. -/
theorem c6_cr_feature_preparation (t : Tokenizer)
    (premises hyps : List String) (labels : List Int) :
    ∃ out, prepare_train_features (some t) premises hyps labels = .ok out ∧
      out.call.premises = premises ∧ out.call.hypotheses = hyps ∧
      out.call.truncation = true ∧ out.call.padding = false ∧
      out.labels = labels :=
  ⟨{ call := { premises := premises, hypotheses := hyps,
               truncation := true, padding := false }, labels := labels },
    rfl, rfl, rfl, rfl, rfl, rfl⟩

/-- C7 counterexample: the claim says a missing tokenizer is raised
immediately, before any record processing, rather than deferred to feature
preparation.  If that held, loading with `tokenizer = None` would surface the
tokenizer configuration error whatever the files contain; instead, with an
uninitialized tokenizer and a malformed `.jsonl` file the commonsense loader
runs the per-file decode first and surfaces the parser's error — record
processing happened before any tokenizer check. -/
theorem c7_tokenizer_check_deferred_counterexample :
    (cr_load_dataset none (failJsonlDecoders PRecord) badDirP).result =
      .error (.decode "malformed JSON") ∧
    LoadError.decode "malformed JSON" ≠ LoadError.tokenizerNotInitialized :=
  ⟨rfl, by decide⟩

/-- C7 amended (proved): the uninitialized-tokenizer error is raised inside
feature preparation, when the first batch is prepared, not before record
processing.  In the commonsense task `prepare_train_features` opens with an
explicit `Tokenizer not initialized` raise (before the tokenize call of the
batch); in the classification task there is no explicit check and
`tokenize_function` fails by calling the `None` tokenizer. -/
theorem c7_tokenizer_error_raised_in_feature_preparation :
    (∀ (premises hyps : List String) (labels : List Int),
      prepare_train_features none premises hyps labels =
        .error .tokenizerNotInitialized) ∧
    (∀ (ltid : Option (List (String × Nat))) (texts labels : List String),
      tokenize_function none ltid texts labels =
        .error .tokenizerNotCallable) :=
  ⟨fun _ _ _ => rfl, fun _ _ _ => rfl⟩

/-- C9 (code bug): the claim says every handle acquired during
`load_dataset` — in particular each sqlite3 connection — is released on all
exit paths.  The embedding counts the handles the loader's own code opens
and closes: the three `with open` blocks balance, but the `.db` branch calls
`sqlite3.connect` and the function contains no `close()` at all, so each
`.db` file leaves one connection unreleased even on a fully successful
load (1 open handle after loading a directory with one `.db` file, where
the claim requires 0). -/
theorem c9_sqlite_connection_never_closed :
    (∀ (ρ : Type) (d : Decoders ρ) (e : DirEntry),
        (decodeFile d e).opened = (decodeFile d e).closed ∨
        ((decodeFile d e).opened = (decodeFile d e).closed + 1 ∧
          pyEndsWith e.name ".db" = true)) ∧
    (cls_load_dataset (some { tokenizerId := 0 }) none dbDecodersC
        dbDirC).openHandles = 1 ∧
    (cr_load_dataset (some { tokenizerId := 0 }) dbDecodersP
        dbDirP).openHandles = 1 := by
  refine ⟨?_, rfl, rfl⟩
  intro ρ d e
  unfold decodeFile
  repeat' split
  all_goals simp_all

/-- C10 (confirmed): in the classification snapshot path no label index is
derived from the data — tokenization uses exactly the mapping captured from
the model configuration at entry (classification.py line 80), and the
configuration is not modified; when the model is absent or its `label2id` is
empty that captured mapping is `None`, and tokenizing any nonempty snapshot
fails with the `None`-subscript error instead of building a mapping from
the observed labels. -/
theorem c10_snapshot_path_uses_preexisting_label_map
    (t : Tokenizer) (model : Option ModelConfig)
    (d : Decoders CRecord) (dir : Dir CRecord)
    (r : CRecord) (rest : List CRecord)
    (hm : hasMarker dir = true)
    (hs : dir.snapshot = .ok (r :: rest)) :
    (cls_load_dataset (some t) model d dir).result =
      tokenize_function (some t) (initialLabelMap model)
        ((r :: rest).map (fun x => x.text))
        ((r :: rest).map (fun x => x.label)) ∧
    (cls_load_dataset (some t) model d dir).config = model ∧
    ((model = none ∨ ∃ cfg, model = some cfg ∧ cfg.label2id = []) →
      initialLabelMap model = none) ∧
    (initialLabelMap model = none →
      (cls_load_dataset (some t) model d dir).result =
        .error .noneNotSubscriptable) := by
  have key : cls_load_dataset (some t) model d dir =
      { result := tokenize_function (some t) (initialLabelMap model)
          ((r :: rest).map (fun x => x.text))
          ((r :: rest).map (fun x => x.label)),
        config := model, openHandles := 0 } := by
    simp [cls_load_dataset, hm, hs]
  refine ⟨by rw [key], by rw [key], ?_, ?_⟩
  · rintro (rfl | ⟨cfg, rfl, hcfg⟩)
    · rfl
    · simp [initialLabelMap, hcfg]
  · intro hnone
    rw [key]
    show tokenize_function (some t) (initialLabelMap model) _ _ =
      .error .noneNotSubscriptable
    rw [hnone]
    rfl

/-- Witness for C10: with no model supplied and a one-record snapshot, the
load fails with the `None`-subscript error and builds no label map. -/
theorem c10_snapshot_path_uses_preexisting_label_map_witness :
    (cls_load_dataset (some { tokenizerId := 0 }) none (okDecoders CRecord)
        markerDirCleanC).result =
      tokenize_function (some { tokenizerId := 0 }) (initialLabelMap none)
        (([{ text := "hello", label := "pos" }] : List CRecord).map
          (fun x => x.text))
        (([{ text := "hello", label := "pos" }] : List CRecord).map
          (fun x => x.label)) ∧
    (cls_load_dataset (some { tokenizerId := 0 }) none (okDecoders CRecord)
        markerDirCleanC).config = none ∧
    ((none = (none : Option ModelConfig) ∨
        ∃ cfg, (none : Option ModelConfig) = some cfg ∧ cfg.label2id = []) →
      initialLabelMap none = none) ∧
    (initialLabelMap none = none →
      (cls_load_dataset (some { tokenizerId := 0 }) none (okDecoders CRecord)
          markerDirCleanC).result = .error .noneNotSubscriptable) :=
  c10_snapshot_path_uses_preexisting_label_map { tokenizerId := 0 } none
    (okDecoders CRecord) markerDirCleanC
    { text := "hello", label := "pos" } [] rfl rfl
